import Mathlib

/-!
Verification of the sploot-media-clustering service against its specification.

The Python sources are shallowly embedded as Lean definitions:

* `services/clustering_engine.py` — `infer_label`, `buildCluster`, `cluster_images`.
  The engine's floating-point similarity values and the DBSCAN labelling are
  produced by library calls (numpy / scikit-learn); every IEEE double is a
  rational number, so those library outputs enter the model as parameters
  ranging over `List ℚ` / `List Int`, and the theorems quantify over all of
  their possible values.  `np.argsort` (default kind, quicksort) guarantees
  only that it returns some permutation ordering the keys; that contract is
  the predicate `IsArgsortDesc`, and `argsortDesc` is the deterministic
  stable realisation used for concrete evaluation.
* `workers/run_worker.py` — `retry_or_deadletter`, `handle_env`, `handle_job`,
  `process_message`, with Redis/HTTP effects reified as an `Effect` trace.
* `routes/internal.py` and `config.py` — `verify_internal_token`,
  `from_domain`, `get_clusters`, with the declared `Settings` fields.
-/

namespace Sploot

/-! Worker embedding: `workers/run_worker.py`.  Redis and HTTP side effects
are reified as an ordered `Effect` trace; external inputs (the storage
service responses, the JSON parser, the clock, the numeric library outputs)
are fields of a `World` parameter. -/

/-! Routes embedding: `routes/internal.py` against the `Settings` model of
`config.py`. -/

/-! Concrete worlds and values used by witnesses and counterexamples. -/

/-- Python exceptions that the clustering engine can raise. -/
inductive PyErr where
  | valueError (msg : String)
  | indexError
deriving DecidableEq

deriving instance DecidableEq for Except

/-- Python `chr`: code point to a one-character string.  Exact for valid,
non-surrogate code points, which covers every cluster label the engine can
produce. -/
def pyChr (n : Int) : String :=
  String.mk [Char.ofNat n.toNat]

/-- Embedding of `ClusteringEngine._infer_label` (clustering_engine.py, lines
131-152).  In identity mode the Python code is
`label_map.get(cluster_id, f"Pet {chr(65 + cluster_id)}")`; in pose mode it is
`label_map.get(cluster_id % len(label_map), f"Group {cluster_id}")` where `%`
is Python's modulo (same as `Int.emod` for the positive divisor 5). -/
def infer_label (cluster_id : Int) (use_identity : Bool) : String :=
  if use_identity then
    if cluster_id = 0 then "Pet A"
    else if cluster_id = 1 then "Pet B"
    else if cluster_id = 2 then "Pet C"
    else if cluster_id = 3 then "Pet D"
    else if cluster_id = 4 then "Pet E"
    else "Pet " ++ pyChr (65 + cluster_id)
  else
    if cluster_id % 5 = 0 then "Portraits"
    else if cluster_id % 5 = 1 then "Action Shots"
    else if cluster_id % 5 = 2 then "Close-ups"
    else if cluster_id % 5 = 3 then "Outdoor Scenes"
    else if cluster_id % 5 = 4 then "Group Photos"
    else "Group " ++ toString cluster_id

/-- Embedding of the `ClusterMember` dataclass (clustering_engine.py). -/
structure ClusterMember where
  image_id : String
  score : ℚ
  position : Nat
deriving DecidableEq

/-- Embedding of the `ClusterResult` dataclass (clustering_engine.py). -/
structure ClusterResult where
  cluster_id : String
  label : String
  hero_image_id : String
  members : List ClusterMember
  quality_score : ℚ
deriving DecidableEq

/-- `np.mean` on the exact rational values (the list is always non-empty where
the code calls it). -/
def pyMean (l : List ℚ) : ℚ :=
  l.sum / (l.length : ℚ)

/-- The contract of `np.argsort(-similarities)` (clustering_engine.py, line
99): the result is a permutation of `range(len(similarities))` along which the
similarity values are non-increasing.  The default sort kind (quicksort) is
documented as unstable, so nothing beyond this contract is guaranteed. -/
def IsArgsortDesc (s : List ℚ) (p : List Nat) : Prop :=
  p.Perm (List.range s.length) ∧
    (p.map (fun i => s.getD i 0)).Chain' (fun a b => b ≤ a)

/-- Ordering on indices realising a stable descending argsort: strictly larger
value first, ties by ascending index. -/
def rankLE (s : List ℚ) (i j : Nat) : Prop :=
  s.getD j 0 < s.getD i 0 ∨ (s.getD i 0 = s.getD j 0 ∧ i ≤ j)

instance (s : List ℚ) (i j : Nat) : Decidable (rankLE s i j) :=
  inferInstanceAs
    (Decidable (s.getD j 0 < s.getD i 0 ∨ (s.getD i 0 = s.getD j 0 ∧ i ≤ j)))

instance (s : List ℚ) : IsTotal Nat (rankLE s) where
  total i j := by
    rcases lt_trichotomy (s.getD i 0) (s.getD j 0) with h | h | h
    · exact Or.inr (Or.inl h)
    · rcases Nat.le_total i j with hij | hij
      · exact Or.inl (Or.inr ⟨h, hij⟩)
      · exact Or.inr (Or.inr ⟨h.symm, hij⟩)
    · exact Or.inl (Or.inl h)

instance (s : List ℚ) : IsTrans Nat (rankLE s) where
  trans a b c hab hbc := by
    rcases hab with h1 | ⟨e1, le1⟩ <;> rcases hbc with h2 | ⟨e2, le2⟩
    · exact Or.inl (lt_trans h2 h1)
    · exact Or.inl (by rw [← e2]; exact h1)
    · exact Or.inl (by rw [e1]; exact h2)
    · exact Or.inr ⟨e1.trans e2, le1.trans le2⟩

/-- Stable descending argsort: the deterministic realisation of
`np.argsort(-similarities)` that numpy's insertion sort produces on small
inputs (ties broken by ascending input index). -/
def argsortDesc (s : List ℚ) : List Nat :=
  List.insertionSort (rankLE s) (List.range s.length)

/-- The member-construction comprehension of `cluster_images`
(clustering_engine.py, lines 108-115): iterate the (already truncated and
reordered) index list with a running position counter. -/
def membersFrom (ids : List String) (sims : List ℚ) :
    Nat → List Nat → List ClusterMember
  | _, [] => []
  | pos, j :: js =>
    ⟨ids.getD j "", sims.getD j 0, pos⟩ :: membersFrom ids sims (pos + 1) js

/-- Per-cluster construction of `cluster_images` (clustering_engine.py, lines
99-127), starting from the argsort permutation `ranked_full` of the
similarity vector: truncate to `max_cluster_size`, reorder the ids, pick the
hero at position 0 (`cluster_image_ids[0]` raises IndexError when the
truncated list is empty), build members and the mean quality. -/
def buildCluster (cluster_label : Int) (use_identity : Bool)
    (cluster_image_ids : List String) (similarities : List ℚ)
    (ranked_full : List Nat) (max_cluster_size : Nat) :
    Except PyErr ClusterResult :=
  match ranked_full.take max_cluster_size with
  | [] => .error .indexError
  | j0 :: js =>
    .ok { cluster_id := "cluster-" ++ toString cluster_label
          label := infer_label cluster_label use_identity
          hero_image_id := cluster_image_ids.getD j0 ""
          members := membersFrom cluster_image_ids similarities 0 (j0 :: js)
          quality_score :=
            pyMean ((j0 :: js).map (fun j => similarities.getD j 0)) }

/-- The masked selection `[xs[i] for i in range(len(xs)) if labels[i] == L]`
of `cluster_images` (clustering_engine.py, lines 90-92). -/
def selectByLabel (labels : List Int) (L : Int) (xs : List α) : List α :=
  ((xs.zip labels).filter (fun p => p.2 == L)).map Prod.fst

/-- A Python for-loop that builds a list and propagates the first raised
exception. -/
def tryMapE (f : α → Except PyErr β) : List α → Except PyErr (List β)
  | [] => .ok []
  | a :: l => do
    let b ← f a
    let bs ← tryMapE f l
    return b :: bs

/-- Embedding of `ClusteringEngine.cluster_images` (clustering_engine.py,
lines 48-129).  The scikit-learn call `DBSCAN(...).fit_predict(distances)` and
the floating-point similarity computation
`cluster_embeddings @ (centroid / norm(centroid))` are library outputs; they
enter as the parameters `labels` (one integer per input row, noise = -1) and
`simsOf` (one rational per selected row).  `argsortNeg` models
`fun s => np.argsort(-s)`; the set of labels is iterated in first-occurrence
order (Python set iteration order is unspecified and the claims are
order-independent). -/
def cluster_images (argsortNeg : List ℚ → List Nat)
    (simsOf : List (List ℚ) → List ℚ) (min_samples max_cluster_size : Nat)
    (use_identity : Bool) (image_ids : List String)
    (embeddings : List (List ℚ)) (labels : List Int) :
    Except PyErr (List ClusterResult) :=
  if image_ids.length ≠ embeddings.length then
    .error (.valueError "image_ids and embeddings must have the same length")
  else if image_ids.length < min_samples then
    .ok []
  else
    tryMapE
      (fun L =>
        let cluster_image_ids := selectByLabel labels L image_ids
        let cluster_embeddings := selectByLabel labels L embeddings
        let similarities := simsOf cluster_embeddings
        buildCluster L use_identity cluster_image_ids similarities
          (argsortNeg similarities) max_cluster_size)
      (labels.eraseDups.filter (fun L => L != -1))

/-- Output of `cluster_images` on the concrete input used to witness C2. -/
def c2val : ClusterResult :=
  { cluster_id := "cluster-0", label := "Pet A", hero_image_id := "a"
    members := [⟨"a", 1, 0⟩, ⟨"b", 1, 1⟩], quality_score := 1 }

/-- The identity-mode label table as the spec (§6) lists it; C3 claims the
engine indexes this table modulo its length. -/
def specIdentityLabelTable : List String :=
  ["Pet A", "Pet B", "Pet C", "Pet D", "Pet E"]

/-- Output of `buildCluster` on the concrete input used to witness the
amended C4. -/
def c4val : ClusterResult :=
  { cluster_id := "cluster-0", label := "Pet A", hero_image_id := "x"
    members := [⟨"x", 1, 0⟩, ⟨"y", 1, 1⟩], quality_score := 1 }

/-- The JSON job envelope read from a stream entry (`json.loads` of the
entry's `payload` field).  Fields absent from the JSON object are `none`;
`payload` is the opaque pass-through mapping. -/
structure JobEnvelope where
  pet_id : Option String
  job_id : Option String
  payload : List (String × String)
  attempts : Option Int
  enqueued_at : Option String
deriving DecidableEq

/-- An insight record as consumed by the worker: the `has_embedding` flag and
the `embedding` list, with Python falsiness (absent flag = false, absent or
empty embedding = `[]`). -/
structure InsightRecord where
  has_embedding : Bool
  embedding : List ℚ
deriving DecidableEq

/-- JSON values stored in the metrics mapping of a persisted state: Python
keeps `len(...)` results as integers and `float(np.mean(...))` as a float. -/
inductive JVal where
  | int (n : Int)
  | num (q : ℚ)
  | str (s : String)
  | dict (d : List (String × ℚ))
deriving DecidableEq

/-- A member dict inside a persisted cluster (run_worker.py, lines 257-264). -/
structure StateMember where
  image_id : String
  score : ℚ
  position : Nat
  quality_score : ℚ
deriving DecidableEq

/-- A cluster dict inside a persisted state (run_worker.py, lines 283-291). -/
structure StateCluster where
  id : String
  label : String
  hero_image_id : String
  members : List StateMember
  quality_score : ℚ
deriving DecidableEq

/-- The `ClusterState` dataclass (services/clustering.py, lines 16-26); the
worker persists it with `metrics` as a JSON mapping and `updated_at` from the
clock. -/
structure ClusterState where
  pet_id : String
  clusters : List StateCluster
  metrics : List (String × JVal)
  updated_at : String
deriving DecidableEq

/-- One entry of `insight_updates` (run_worker.py, lines 266-281). -/
structure InsightUpdate where
  source_image_id : Int
  quality_score : ℚ
  processor_version : String
  cluster_id : String
  label : String
  position : Nat
  score : ℚ
  is_hero : Bool
deriving DecidableEq

/-- External effects the worker performs, in program order. -/
inductive Effect where
  | ack
  | incr (result : String)
  | fetchImages (pet : Int)
  | fetchInsights (ids : List String)
  | persist (st : ClusterState)
  | storeInsights (updates : List InsightUpdate)
  | republish (env : JobEnvelope)
  | deadLetter (env : JobEnvelope) (error : String)
deriving DecidableEq

/-- Whether the handler returned normally or raised. -/
inductive Outcome where
  | returned
  | raised (err : String)
deriving DecidableEq

/-- Trace and outcome of one handler invocation. -/
structure HandleRun where
  effects : List Effect
  outcome : Outcome
deriving DecidableEq

/-- One decimal digit. -/
def pyDigit? (c : Char) : Option Nat :=
  if 0x30 ≤ c.toNat ∧ c.toNat ≤ 0x39 then some (c.toNat - 0x30) else none

/-- Digits of a Python integer literal after the first digit: single
underscores are allowed between digits only. -/
def pyDigitsCore : List Char → Nat → Option Nat
  | [], acc => some acc
  | '_' :: c :: rest, acc =>
    match pyDigit? c with
    | some d => pyDigitsCore rest (acc * 10 + d)
    | none => none
  | c :: rest, acc =>
    match pyDigit? c with
    | some d => pyDigitsCore rest (acc * 10 + d)
    | none => none

/-- A non-empty digit run with optional grouping underscores. -/
def pyParseNat : List Char → Option Nat
  | [] => none
  | c :: rest =>
    match pyDigit? c with
    | some d => pyDigitsCore rest d
    | none => none

/-- Sign handling of Python `int(str)`. -/
def pyParseIntCore : List Char → Option Int
  | '+' :: rest => (pyParseNat rest).map (fun n => (n : Int))
  | '-' :: rest => (pyParseNat rest).map (fun n => -(n : Int))
  | l => (pyParseNat l).map (fun n => (n : Int))

/-- ASCII whitespace stripped by Python `int` (the unicode cases are not
exercised here). -/
def pyWs (c : Char) : Bool :=
  c = ' ' || c = '\t' || c = '\n' || c = '\r' || c = '\x0b' || c = '\x0c'

/-- Strip leading and trailing whitespace of a character list. -/
def pyStrip (l : List Char) : List Char :=
  ((l.dropWhile pyWs).reverse.dropWhile pyWs).reverse

/-- Python `int(s)` for a string argument: strip surrounding whitespace, then
an optional sign and a non-empty digit run; `none` models the raised
ValueError. -/
def pyParseInt (s : String) : Option Int :=
  pyParseIntCore (pyStrip s.data)

/-- Python `int(x)` where `x` is the envelope's `pet_id` entry: a missing key
gives `None` and `int(None)` raises TypeError. -/
def pyInt? : Option String → Option Int
  | none => none
  | some s => pyParseInt s

/-- The error message `str(exc)` of the exception `int(pet_id)` raises. -/
def intErrorOf : Option String → String
  | none =>
    "int() argument must be a string, a bytes-like object or a real number, not 'NoneType'"
  | some s => "invalid literal for int() with base 10: '" ++ s ++ "'"

/-- Python `str(x)` / f-string interpolation of the optional `pet_id`. -/
def pyStr (o : Option String) : String :=
  o.getD "None"

/-- The message of a `PyErr` as `str(exc)` renders it. -/
def pyErrMsg : PyErr → String
  | .valueError m => m
  | .indexError => "list index out of range"

/-- The `embeddings_map` construction (run_worker.py, lines 209-212): keep
insight entries whose record is truthy with a truthy `has_embedding` and a
non-empty `embedding`. -/
def embeddingsMapOf (insights : List (String × InsightRecord)) :
    List (String × List ℚ) :=
  insights.filterMap (fun p =>
    if p.2.has_embedding && !p.2.embedding.isEmpty then some (p.1, p.2.embedding)
    else none)

/-- External inputs of one worker run. -/
structure World where
  fetchImages : Int → List String
  fetchInsights : List String → List (String × InsightRecord)
  argsortNeg : List ℚ → List Nat
  simsOf : List (List ℚ) → List ℚ
  dbscanLabels : List (List ℚ) → List Int
  jsonParse : String → Option JobEnvelope
  now : String
  min_samples : Nat
  max_cluster_size : Nat

/-- The `valid_ids` filter (run_worker.py, line 215): input IDs that survived
the embeddings-map filter. -/
def validIdsOf (W : World) (pid : Int) : List String :=
  let image_ids := W.fetchImages pid
  image_ids.filter (fun i =>
    ((embeddingsMapOf (W.fetchInsights image_ids)).lookup i).isSome)

/-- The clustering call of the handler (run_worker.py, lines 216-246):
`embeddings_list` looked up per valid id, then
`engine.cluster_images(valid_ids, embeddings, use_identity_clustering=True)`. -/
def clusterResultsOf (W : World) (pid : Int) : Except PyErr (List ClusterResult) :=
  let image_ids := W.fetchImages pid
  let embMap := embeddingsMapOf (W.fetchInsights image_ids)
  let valid_ids := validIdsOf W pid
  let embeddings := valid_ids.map (fun i => (embMap.lookup i).getD [])
  cluster_images W.argsortNeg W.simsOf W.min_samples W.max_cluster_size true
    valid_ids embeddings (W.dbscanLabels embeddings)

/-- A Python for-loop building a list, propagating the first raised
exception message. -/
def tryMapX (f : α → Except String β) : List α → Except String (List β)
  | [] => .ok []
  | a :: l => do
    let b ← f a
    let bs ← tryMapX f l
    return b :: bs

/-- The member payload dict (run_worker.py, lines 257-264). -/
def memberPayloadOf (m : ClusterMember) : StateMember :=
  ⟨m.image_id, m.score, m.position, m.score⟩

/-- One insight update (run_worker.py, lines 266-281); `int(member.image_id)`
raises ValueError on a non-numeric id. -/
def insightUpdateOf (cid : String) (r : ClusterResult) (m : ClusterMember) :
    Except String InsightUpdate :=
  match pyParseInt m.image_id with
  | none => .error (intErrorOf (some m.image_id))
  | some sid =>
    .ok { source_image_id := sid, quality_score := m.score
          processor_version := "v1.0.0", cluster_id := cid, label := r.label
          position := m.position, score := m.score
          is_hero := m.image_id == r.hero_image_id }

/-- The output-building loop of the handler (run_worker.py, lines 248-291):
per cluster result, the state cluster dict with
`id = f"{pet_id}-{result.cluster_id}"` and the per-member insight updates. -/
def buildOutputs (pet : String) (results : List ClusterResult) :
    Except String (List StateCluster × List InsightUpdate) := do
  let pairs ← tryMapX
    (fun r => do
      let ups ← tryMapX (insightUpdateOf (pet ++ "-" ++ r.cluster_id) r)
        r.members
      return ({ id := pet ++ "-" ++ r.cluster_id, label := r.label
                hero_image_id := r.hero_image_id
                members := r.members.map memberPayloadOf
                quality_score := r.quality_score }, ups))
    results
  return (pairs.map Prod.fst, (pairs.map Prod.snd).flatten)

/-- The persisted state of a successful run (run_worker.py, lines 293-300):
`num_images` is the length of the *listing* result, `avg_quality` the mean of
the cluster quality scores or 0. -/
def mkClusterState (W : World) (pet : String) (image_ids : List String)
    (clusters : List StateCluster) (results : List ClusterResult) :
    ClusterState :=
  { pet_id := pet, clusters := clusters
    metrics := [("num_clusters", JVal.int (clusters.length : Int)),
                ("num_images", JVal.int (image_ids.length : Int)),
                ("avg_quality", JVal.num
                  (if results.isEmpty then 0
                   else pyMean (results.map ClusterResult.quality_score))),
                ("processed_at", JVal.str W.now)]
    updated_at := W.now }

/-- The handler body after envelope decoding (run_worker.py, lines 162-326).
`int(pet_id)` is evaluated before the first storage call; list falsiness is
matched structurally; on success the trace is fetch, fetch, persist,
(store-insights when non-empty), ack, success counter. -/
def handle_env (W : World) (env : JobEnvelope) : HandleRun :=
  match pyInt? env.pet_id with
  | none => ⟨[], .raised (intErrorOf env.pet_id)⟩
  | some pid =>
    match W.fetchImages pid with
    | [] => ⟨[.fetchImages pid, .ack, .incr "skipped"], .returned⟩
    | _ :: _ =>
      match validIdsOf W pid with
      | [] =>
        ⟨[Effect.fetchImages pid, Effect.fetchInsights (W.fetchImages pid)],
          .returned⟩
      | _ :: _ =>
        match clusterResultsOf W pid with
        | .error e =>
          ⟨[Effect.fetchImages pid, Effect.fetchInsights (W.fetchImages pid)],
            .raised (pyErrMsg e)⟩
        | .ok results =>
          match buildOutputs (pyStr env.pet_id) results with
          | .error msg =>
            ⟨[Effect.fetchImages pid,
              Effect.fetchInsights (W.fetchImages pid)], .raised msg⟩
          | .ok (clusters, updates) =>
            let st := mkClusterState W (pyStr env.pet_id)
              (W.fetchImages pid) clusters results
            ⟨[Effect.fetchImages pid,
              Effect.fetchInsights (W.fetchImages pid)] ++ [.persist st]
                ++ (if updates.isEmpty then [] else [.storeInsights updates])
                ++ [.ack, .incr "success"], .returned⟩

/-- The full `handle_job` (run_worker.py, lines 151-160): a missing `payload`
field (KeyError) or invalid JSON (JSONDecodeError) acks, counts `invalid`
and returns. -/
def handle_job (W : World) (fields_payload : Option String) : HandleRun :=
  match fields_payload with
  | none => ⟨[.ack, .incr "invalid"], .returned⟩
  | some s =>
    match W.jsonParse s with
    | none => ⟨[.ack, .incr "invalid"], .returned⟩
    | some env => handle_env W env

/-- Embedding of `_retry_or_deadletter` (run_worker.py, lines 109-148):
increment attempts, ack, then either dead-letter (publish + counter) or
retry (counter + republish). -/
def retry_or_deadletter (max_attempts : Int) (env : JobEnvelope)
    (error : String) : List Effect × JobEnvelope :=
  let attempts := env.attempts.getD 0 + 1
  let env2 := { env with attempts := some attempts }
  if attempts ≥ max_attempts then
    ([.ack, .deadLetter env2 error, .incr "dead_letter"], env2)
  else
    ([.ack, .incr "retry", .republish env2], env2)

/-- One message iteration of `consume_jobs` (run_worker.py, lines 344-363):
the handler's trace, then on a raised exception the failure counter and the
retry/dead-letter routing of the re-decoded envelope. -/
def process_message (max_attempts : Int) (W : World)
    (fields_payload : Option String) : List Effect :=
  let r := handle_job W fields_payload
  match r.outcome with
  | .returned => r.effects
  | .raised err =>
    let env := ((fields_payload.bind W.jsonParse).getD
      ⟨none, none, [], none, none⟩)
    r.effects ++ [.incr "failure"] ++ (retry_or_deadletter max_attempts env err).1

/-- Successive deliveries of one logical job at the envelope level (republish
serialises the envelope and the next read parses it back; the two are
inverse). Each element is the effect trace of one delivery; iteration stops
when the handler returns normally or the envelope is dead-lettered. -/
def deliverN (W : World) (max_attempts : Int) :
    Nat → JobEnvelope → List (List Effect)
  | 0, _ => []
  | n + 1, env =>
    let r := handle_env W env
    match r.outcome with
    | .returned => [r.effects]
    | .raised err =>
      let step := retry_or_deadletter max_attempts env err
      let effs := r.effects ++ [.incr "failure"] ++ step.1
      if step.2.attempts.getD 0 ≥ max_attempts then [effs]
      else effs :: deliverN W max_attempts n step.2

/-- The string-typed fields that `Settings` (config.py, lines 9-52) declares;
numeric, boolean and nullable fields are omitted, as the routes only read one
string-typed attribute.  Note there is no field named `internal_token`: the
shared secret is `internal_service_token`. -/
structure Settings where
  environment : String
  app_name : String
  redis_url : String
  internal_service_token : String
  redis_namespace : String
  cluster_stream_key : String
  cluster_dead_letter_stream : String
  cluster_consumer_group : String
  cluster_worker_consumer_name : String
  worker_metrics_host : String
  storage_service_url : String
  embedding_model_name : String
  embedding_device : String
deriving DecidableEq

/-- Python attribute lookup of a string-typed field on a `Settings` instance
(pydantic raises AttributeError for a name that is not a declared field;
`namespace` is spelled `redis_namespace` here because `namespace` is a Lean
keyword). -/
def settingsStrAttrs (s : Settings) : List (String × String) :=
  [("environment", s.environment), ("app_name", s.app_name),
   ("redis_url", s.redis_url),
   ("internal_service_token", s.internal_service_token),
   ("namespace", s.redis_namespace),
   ("cluster_stream_key", s.cluster_stream_key),
   ("cluster_dead_letter_stream", s.cluster_dead_letter_stream),
   ("cluster_consumer_group", s.cluster_consumer_group),
   ("cluster_worker_consumer_name", s.cluster_worker_consumer_name),
   ("worker_metrics_host", s.worker_metrics_host),
   ("storage_service_url", s.storage_service_url),
   ("embedding_model_name", s.embedding_model_name),
   ("embedding_device", s.embedding_device)]

/-- Outcome of the authentication dependency as FastAPI renders it: the token
on success, the HTTPException status on an explicit rejection, or an
unhandled exception (which FastAPI answers with HTTP 500). -/
inductive HTTPOutcome where
  | ok (token : String)
  | clientError (status : Nat) (detail : String)
  | serverError (exc : String)
deriving DecidableEq

/-- Embedding of `verify_internal_token` (routes/internal.py, lines 15-19).
The code compares the header against `settings.internal_token`; `Settings`
declares no such field, so the attribute access raises AttributeError before
any comparison. -/
def verify_internal_token (settings : Settings) (token : Option String) :
    HTTPOutcome :=
  match (settingsStrAttrs settings).lookup "internal_token" with
  | none =>
    .serverError "AttributeError: 'Settings' object has no attribute 'internal_token'"
  | some secret =>
    if token ≠ some secret then .clientError 401 "invalid internal token"
    else .ok (token.getD "")

/-- A member of the `ClusterStateResponse` model (routes/internal.py, lines
31-34). -/
structure RespMember where
  image_id : String
  score : ℚ
  position : Nat
deriving DecidableEq

/-- A cluster of the response model (routes/internal.py, lines 37-41): note
there is no `quality_score` field. -/
structure RespCluster where
  id : String
  label : String
  members : List RespMember
  hero_image_id : Option String
deriving DecidableEq

/-- The `ClusterMetrics` response model (routes/internal.py, lines 44-47):
only `coverage`, `quality_score` and `processed_at`. -/
structure RespMetrics where
  coverage : List (String × ℚ)
  quality_score : Option ℚ
  processed_at : Option String
deriving DecidableEq

/-- The `ClusterStateResponse` model (routes/internal.py, lines 50-54). -/
structure ClusterStateResponse where
  pet_id : String
  clusters : List RespCluster
  metrics : RespMetrics
  updated_at : String
deriving DecidableEq

/-- Member conversion in `from_domain` (routes/internal.py, lines 62-69);
worker-written member dicts always carry all keys. -/
def respMemberOf (m : StateMember) : RespMember :=
  ⟨m.image_id, m.score, m.position⟩

/-- Cluster conversion in `from_domain` (routes/internal.py, lines 58-73). -/
def respClusterOf (c : StateCluster) : RespCluster :=
  { id := c.id, label := c.label, members := c.members.map respMemberOf
    hero_image_id := some c.hero_image_id }

/-- The metrics filter of `from_domain` (routes/internal.py, lines 74-76):
`ClusterMetrics(**{k: v for k, v in state.metrics.items() if k in
{"coverage", "quality_score", "processed_at"}})` — every other key is
dropped; absent keys take the model defaults. -/
def metricsFromDict (m : List (String × JVal)) : RespMetrics :=
  { coverage :=
      match m.lookup "coverage" with
      | some (JVal.dict d) => d
      | _ => []
    quality_score :=
      match m.lookup "quality_score" with
      | some (JVal.num q) => some q
      | _ => none
    processed_at :=
      match m.lookup "processed_at" with
      | some (JVal.str s) => some s
      | _ => none }

/-- Embedding of `ClusterStateResponse.from_domain` (routes/internal.py,
lines 56-77). -/
def from_domain (st : ClusterState) : ClusterStateResponse :=
  { pet_id := st.pet_id, clusters := st.clusters.map respClusterOf
    metrics := metricsFromDict st.metrics, updated_at := st.updated_at }

/-- Embedding of the `get_clusters` endpoint (routes/internal.py, lines
86-91), as a function of the state-store lookup: status code and optional
body. -/
def get_clusters (state : Option ClusterState) :
    Nat × Option ClusterStateResponse :=
  match state with
  | none => (404, none)
  | some st => (200, some (from_domain st))

/-- A world whose listing returns two IDs but whose insights give an
embedding to only one of them. -/
def W6 : World :=
  { fetchImages := fun _ => ["1", "2"]
    fetchInsights := fun _ => [("1", ⟨true, [1]⟩)]
    argsortNeg := argsortDesc
    simsOf := fun es => es.map List.sum
    dbscanLabels := fun _ => []
    jsonParse := fun _ => none
    now := "t0"
    min_samples := 2
    max_cluster_size := 24 }

/-- A pet-id-42 envelope. -/
def env6 : JobEnvelope :=
  ⟨some "42", some "j6", [], some 0, none⟩

/-- The state `handle_env W6 env6` persists. -/
def st6 : ClusterState :=
  { pet_id := "42", clusters := []
    metrics := [("num_clusters", JVal.int 0), ("num_images", JVal.int 2),
                ("avg_quality", JVal.num 0), ("processed_at", JVal.str "t0")]
    updated_at := "t0" }

/-- A world whose single listed ID carries no usable embedding. -/
def W8 : World :=
  { fetchImages := fun _ => ["9"]
    fetchInsights := fun _ => [("9", ⟨false, []⟩)]
    argsortNeg := argsortDesc
    simsOf := fun es => es.map List.sum
    dbscanLabels := fun _ => []
    jsonParse := fun _ => none
    now := "t8"
    min_samples := 2
    max_cluster_size := 24 }

/-- An envelope for the empty-embeddings scenario. -/
def env8 : JobEnvelope :=
  ⟨some "3", none, [], some 0, none⟩

/-- A world for the malformed-pet-id scenario. -/
def W10 : World :=
  { fetchImages := fun _ => []
    fetchInsights := fun _ => []
    argsortNeg := argsortDesc
    simsOf := fun es => es.map List.sum
    dbscanLabels := fun _ => []
    jsonParse := fun _ => none
    now := "t10"
    min_samples := 2
    max_cluster_size := 24 }

/-- A front-door style envelope whose pet_id is not an integer literal. -/
def env10 : JobEnvelope :=
  ⟨some "pet_123", some "job_456", [], some 0, none⟩

/-- A worker-shaped persisted state with `num_images = 3`. -/
def st9a : ClusterState :=
  { pet_id := "7", clusters := []
    metrics := [("num_clusters", JVal.int 0), ("num_images", JVal.int 3),
                ("avg_quality", JVal.num 0), ("processed_at", JVal.str "t1")]
    updated_at := "t1" }

/-- The same state except `num_images = 7`. -/
def st9b : ClusterState :=
  { pet_id := "7", clusters := []
    metrics := [("num_clusters", JVal.int 0), ("num_images", JVal.int 7),
                ("avg_quality", JVal.num 0), ("processed_at", JVal.str "t1")]
    updated_at := "t1" }

theorem rankLE_imp_ge (s : List ℚ) {i j : Nat} (h : rankLE s i j) :
    s.getD j 0 ≤ s.getD i 0 := by
  rcases h with h | ⟨h, _⟩
  · exact le_of_lt h
  · exact le_of_eq h.symm

theorem argsortDesc_valid (s : List ℚ) : IsArgsortDesc s (argsortDesc s) := by
  refine ⟨List.perm_insertionSort _ _, ?_⟩
  have hs : List.Sorted (rankLE s) (argsortDesc s) :=
    List.sorted_insertionSort _ _
  have hp : (argsortDesc s).Pairwise (fun i j => s.getD j 0 ≤ s.getD i 0) :=
    hs.imp (fun h => rankLE_imp_ge s h)
  have hm : ((argsortDesc s).map (fun i => s.getD i 0)).Pairwise
      (fun a b => b ≤ a) := by
    rw [List.pairwise_map]
    exact hp
  exact hm.chain'

theorem membersFrom_map_score (ids : List String) (sims : List ℚ) :
    ∀ (pos : Nat) (js : List Nat),
      (membersFrom ids sims pos js).map ClusterMember.score
        = js.map (fun j => sims.getD j 0) := by
  intro pos js
  induction js generalizing pos with
  | nil => rfl
  | cons j js ih => simp [membersFrom, ih]

theorem membersFrom_length (ids : List String) (sims : List ℚ) :
    ∀ (pos : Nat) (js : List Nat),
      (membersFrom ids sims pos js).length = js.length := by
  intro pos js
  induction js generalizing pos with
  | nil => rfl
  | cons j js ih => simp [membersFrom, ih]

theorem tryMapE_mem {f : α → Except PyErr β} :
    ∀ {l : List α} {res : List β}, tryMapE f l = .ok res →
      ∀ b ∈ res, ∃ a ∈ l, f a = .ok b := by
  intro l
  induction l with
  | nil =>
    intro res h b hb
    simp [tryMapE] at h
    subst h
    simp at hb
  | cons a l ih =>
    intro res h b hb
    simp only [tryMapE, bind, Except.bind] at h
    cases ha : f a with
    | error e => rw [ha] at h; cases h
    | ok b0 =>
      rw [ha] at h
      cases hl : tryMapE f l with
      | error e => rw [hl] at h; cases h
      | ok bs =>
        rw [hl] at h
        simp only [pure, Except.pure, Except.ok.injEq] at h
        subst h
        rcases List.mem_cons.mp hb with hb | hb
        · exact ⟨a, List.mem_cons_self a l, by rw [ha, hb]⟩
        · rcases ih hl b hb with ⟨a', ha', hfa'⟩
          exact ⟨a', List.mem_cons_of_mem a ha', hfa'⟩

theorem buildCluster_ok_props (L : Int) (uid : Bool) (cids : List String)
    (sims : List ℚ) (p : List Nat) (maxS : Nat) (c : ClusterResult)
    (hp : (p.map (fun i => sims.getD i 0)).Chain' (fun a b => b ≤ a))
    (h : buildCluster L uid cids sims p maxS = .ok c) :
    c.members.length ≤ maxS ∧
      (∃ m ms, c.members = m :: ms ∧ c.hero_image_id = m.image_id) ∧
      (c.members.map ClusterMember.score).Chain' (fun a b => b ≤ a) := by
  unfold buildCluster at h
  cases htake : p.take maxS with
  | nil => rw [htake] at h; cases h
  | cons j0 js =>
    rw [htake] at h
    simp only [Except.ok.injEq] at h
    subst h
    refine ⟨?_, ?_, ?_⟩
    · have hlen : (j0 :: js).length ≤ maxS := by
        rw [← htake]
        simp only [List.length_take]
        exact Nat.min_le_left maxS p.length
      simpa [membersFrom_length] using hlen
    · exact ⟨⟨cids.getD j0 "", sims.getD j0 0, 0⟩,
        membersFrom cids sims 1 js, rfl, rfl⟩
    · have hscores : ((membersFrom cids sims 0 (j0 :: js)).map
          ClusterMember.score) = (j0 :: js).map (fun j => sims.getD j 0) :=
        membersFrom_map_score cids sims 0 (j0 :: js)
      rw [hscores, ← htake, List.map_take]
      exact hp.take maxS

/-- C2: every cluster returned by `cluster_images` has at most
`max_cluster_size` members, its `hero_image_id` is the `image_id` of the
member at position 0, and the member scores are non-increasing in member
order.  The theorem quantifies over every DBSCAN labelling, every
floating-point similarity outcome `simsOf`, and every permutation the
(unstable) `np.argsort` may return. -/
theorem cluster_images_invariants (argsortNeg : List ℚ → List Nat)
    (simsOf : List (List ℚ) → List ℚ) (min_samples max_cluster_size : Nat)
    (use_identity : Bool) (image_ids : List String)
    (embeddings : List (List ℚ)) (labels : List Int)
    (results : List ClusterResult)
    (hsort : ∀ s, IsArgsortDesc s (argsortNeg s))
    (hok : cluster_images argsortNeg simsOf min_samples max_cluster_size
      use_identity image_ids embeddings labels = .ok results) :
    ∀ c ∈ results,
      c.members.length ≤ max_cluster_size ∧
        (∃ m ms, c.members = m :: ms ∧ c.hero_image_id = m.image_id) ∧
        (c.members.map ClusterMember.score).Chain' (fun a b => b ≤ a) := by
  intro c hc
  unfold cluster_images at hok
  by_cases hlen : image_ids.length ≠ embeddings.length
  · rw [if_pos hlen] at hok; cases hok
  rw [if_neg hlen] at hok
  by_cases hmin : image_ids.length < min_samples
  · rw [if_pos hmin] at hok
    simp only [Except.ok.injEq] at hok
    subst hok
    simp at hc
  rw [if_neg hmin] at hok
  rcases tryMapE_mem hok c hc with ⟨Lab, _, hbuild⟩
  exact buildCluster_ok_props Lab use_identity _ _ _ _ c
    (hsort (simsOf (selectByLabel labels Lab embeddings))).2 hbuild

/-- C2 witness: a concrete two-image run discharging the hypotheses of
`cluster_images_invariants`. -/
theorem cluster_images_invariants_witness :
    cluster_images argsortDesc (fun es => es.map List.sum) 2 24 true
        ["a", "b"] [[1], [1]] [0, 0] = .ok [c2val] ∧
      (c2val.members.length ≤ 24 ∧
        (∃ m ms, c2val.members = m :: ms ∧ c2val.hero_image_id = m.image_id) ∧
        (c2val.members.map ClusterMember.score).Chain' (fun a b => b ≤ a)) := by
  have hok : cluster_images argsortDesc (fun es => es.map List.sum) 2 24 true
      ["a", "b"] [[1], [1]] [0, 0] = .ok [c2val] := by
    norm_num [cluster_images, tryMapE, buildCluster, selectByLabel,
      argsortDesc, List.insertionSort, List.orderedInsert, rankLE,
      membersFrom, pyMean, infer_label, c2val, List.eraseDups, Bind.bind,
      Except.bind]
    decide
  exact ⟨hok,
    cluster_images_invariants argsortDesc (fun es => es.map List.sum) 2 24
      true ["a", "b"] [[1], [1]] [0, 0] [c2val] argsortDesc_valid hok
      c2val (by decide)⟩

/-- C3 counterexample: for raw DBSCAN label 5, identity mode returns "Pet F"
through the `chr(65 + cluster_id)` fallback, not the modulo-indexed table
entry `label_table[5 % 5] = "Pet A"` the claim requires. -/
theorem infer_label_modulo_counterexample :
    infer_label 5 true = "Pet F" ∧
      specIdentityLabelTable.getD ((5 % 5 : Int)).toNat "" = "Pet A" ∧
      infer_label 5 true ≠ specIdentityLabelTable.getD ((5 % 5 : Int)).toNat ""
    := by
  decide

/-- C3 (amended): in identity mode the label is the table entry at index L
for 0 ≤ L ≤ 4, and the fallback "Pet chr(65+L)" for L ≥ 5; the modulo formula
applies only to pose mode. -/
theorem infer_label_identity_amended (L : Int) (h : 0 ≤ L) :
    infer_label L true =
      if L < 5 then specIdentityLabelTable.getD L.toNat ""
      else "Pet " ++ pyChr (65 + L) := by
  by_cases h0 : L = 0
  · subst h0; decide
  by_cases h1 : L = 1
  · subst h1; decide
  by_cases h2 : L = 2
  · subst h2; decide
  by_cases h3 : L = 3
  · subst h3; decide
  by_cases h4 : L = 4
  · subst h4; decide
  have h5 : ¬ L < 5 := by omega
  simp [infer_label, h0, h1, h2, h3, h4, h5]

/-- C3 amended witness at L = 7. -/
theorem infer_label_identity_amended_witness :
    (0 : Int) ≤ 7 ∧
      infer_label 7 true =
        (if (7 : Int) < 5 then specIdentityLabelTable.getD (7 : Int).toNat ""
         else "Pet " ++ pyChr (65 + 7)) :=
  ⟨by decide, infer_label_identity_amended 7 (by decide)⟩

theorem chain'_ge_head_max {l : List ℚ} {x : ℚ}
    (h : (x :: l).Chain' (fun a b => b ≤ a)) : ∀ y ∈ x :: l, y ≤ x := by
  induction l generalizing x with
  | nil =>
    intro y hy
    exact le_of_eq (List.mem_singleton.mp hy)
  | cons z l ih =>
    intro y hy
    rw [List.chain'_cons] at h
    rcases List.mem_cons.mp hy with h' | hy'
    · exact le_of_eq h'
    · exact le_trans (ih h.2 y hy') h.1

theorem argsortDesc_const (sims : List ℚ)
    (hconst : ∀ x ∈ sims, ∀ y ∈ sims, x = y) :
    argsortDesc sims = List.range sims.length := by
  unfold argsortDesc
  apply List.Sorted.insertionSort_eq
  refine (List.sorted_lt_range sims.length).imp_of_mem ?_
  intro i j hi hj hij
  have hilen : i < sims.length := List.mem_range.mp hi
  have hjlen : j < sims.length := List.mem_range.mp hj
  have hieq : sims.getD i 0 = sims.getD j 0 := by
    rw [List.getD_eq_getElem sims 0 hilen, List.getD_eq_getElem sims 0 hjlen]
    exact hconst _ (List.getElem_mem hilen) _ (List.getElem_mem hjlen)
  exact Or.inr ⟨hieq, le_of_lt hij⟩

/-- C4 counterexample: `np.argsort` with its default (quicksort) kind promises
only a valid descending permutation, not stability; the permutation `[1, 0]`
satisfies that contract on the equal-score vector `[1, 1]`, and building the
cluster from it makes the hero the member with the larger input index, so the
claimed stable tie-break does not follow from the code. -/
theorem buildCluster_tie_counterexample :
    IsArgsortDesc [(1 : ℚ), 1] [1, 0] ∧
      (buildCluster 0 true ["a", "b"] [(1 : ℚ), 1] [1, 0] 24).map
          ClusterResult.hero_image_id = .ok "b" := by
  refine ⟨⟨by decide, ?_⟩, by decide⟩
  simp [List.chain'_cons]

/-- C4 (amended): members are ranked by non-increasing score for every
permutation `np.argsort` may legally return, and the hero attains the maximal
member score; the stable tie-break (ties by ascending original input index,
hero of an identically-scoring cluster = first input) holds when the argsort
is the stable one (`argsortDesc`), which numpy provides only on small inputs,
not in general. -/
theorem buildCluster_ranking_amended (L : Int) (uid : Bool)
    (cids : List String) (sims : List ℚ) (maxS : Nat) (c : ClusterResult)
    (h : buildCluster L uid cids sims (argsortDesc sims) maxS = .ok c) :
    ((c.members.map ClusterMember.score).Chain' (fun a b => b ≤ a)) ∧
      (∀ m0, c.members.head? = some m0 →
        c.hero_image_id = m0.image_id ∧ ∀ m ∈ c.members, m.score ≤ m0.score) ∧
      ((∀ x ∈ sims, ∀ y ∈ sims, x = y) → c.hero_image_id = cids.getD 0 "") := by
  obtain ⟨hlen, ⟨m0, ms, hmem, hhero⟩, hchain⟩ :=
    buildCluster_ok_props L uid cids sims (argsortDesc sims) maxS c
      (argsortDesc_valid sims).2 h
  refine ⟨hchain, ?_, ?_⟩
  · intro m0' hm0'
    rw [hmem] at hm0'
    simp only [List.head?_cons, Option.some.injEq] at hm0'
    subst hm0'
    refine ⟨hhero, ?_⟩
    intro m hm
    have : m.score ∈ (c.members.map ClusterMember.score) :=
      List.mem_map_of_mem ClusterMember.score hm
    rw [hmem] at this hchain
    simp only [List.map_cons] at this hchain
    exact chain'_ge_head_max hchain m.score this
  · intro hconst
    rw [argsortDesc_const sims hconst] at h
    unfold buildCluster at h
    cases hn : sims.length with
    | zero =>
      rw [hn] at h
      simp [List.range_zero] at h
    | succ k =>
      rw [hn] at h
      cases hmS : maxS with
      | zero => rw [hmS] at h; simp at h
      | succ mk =>
        rw [hmS] at h
        rw [List.range_succ_eq_map] at h
        simp only [List.take_succ_cons, Except.ok.injEq] at h
        subst h
        rfl

/-- C4 amended witness: a two-member equal-score cluster built with the
stable argsort has the first input as hero. -/
theorem buildCluster_ranking_amended_witness :
    buildCluster 0 true ["x", "y"] [(1 : ℚ), 1] (argsortDesc [(1 : ℚ), 1]) 24
        = .ok c4val ∧
      c4val.hero_image_id = ["x", "y"].getD 0 "" := by
  have h : buildCluster 0 true ["x", "y"] [(1 : ℚ), 1]
      (argsortDesc [(1 : ℚ), 1]) 24 = .ok c4val := by
    norm_num [buildCluster, argsortDesc, List.insertionSort,
      List.orderedInsert, rankLE, membersFrom, pyMean, infer_label, c4val]
    decide
  exact ⟨h,
    (buildCluster_ranking_amended 0 true ["x", "y"] [(1 : ℚ), 1] 24 c4val
      h).2.2 (by decide)⟩

/-- C1: on the failure path the new attempt count is the envelope's count
plus one; the entry is always acked first, and then the envelope is either
published to the dead-letter stream with the stringified error (when the
count has reached max_attempts) or republished to the main stream with the
updated count; consequently every envelope reaching the dead-letter stream
carries attempts >= max_attempts, and the ack precedes the republish. -/
theorem retry_or_deadletter_spec (max_attempts : Int) (env : JobEnvelope)
    (error : String) :
    (retry_or_deadletter max_attempts env error).2
        = { env with attempts := some (env.attempts.getD 0 + 1) } ∧
      (env.attempts.getD 0 + 1 ≥ max_attempts →
        (retry_or_deadletter max_attempts env error).1
          = [.ack,
             .deadLetter { env with attempts := some (env.attempts.getD 0 + 1) }
               error,
             .incr "dead_letter"]) ∧
      (env.attempts.getD 0 + 1 < max_attempts →
        (retry_or_deadletter max_attempts env error).1
          = [.ack, .incr "retry",
             .republish
               { env with attempts := some (env.attempts.getD 0 + 1) }]) ∧
      (∀ e s,
        Effect.deadLetter e s ∈ (retry_or_deadletter max_attempts env error).1 →
          max_attempts ≤ e.attempts.getD 0) ∧
      (retry_or_deadletter max_attempts env error).1.head? = some .ack := by
  refine ⟨?_, ?_, ?_, ?_, ?_⟩
  · by_cases h : env.attempts.getD 0 + 1 ≥ max_attempts <;>
      simp [retry_or_deadletter, h]
  · intro h
    simp [retry_or_deadletter, h]
  · intro h2
    have h : ¬ env.attempts.getD 0 + 1 ≥ max_attempts := not_le.mpr h2
    simp [retry_or_deadletter, h]
  · intro e s hmem
    by_cases h : env.attempts.getD 0 + 1 ≥ max_attempts
    · simp [retry_or_deadletter, h] at hmem
      rcases hmem with ⟨he, _⟩
      subst he
      simpa using h
    · simp [retry_or_deadletter, h] at hmem
  · by_cases h : env.attempts.getD 0 + 1 ≥ max_attempts <;>
      simp [retry_or_deadletter, h]

/-- C1 witness: an envelope at attempts 4 with max_attempts 5 is acked and
dead-lettered with attempts 5. -/
theorem retry_or_deadletter_spec_witness :
    (retry_or_deadletter 5 ⟨some "p", none, [], some 4, none⟩ "boom").1
        = [.ack,
           .deadLetter ⟨some "p", none, [], some 5, none⟩ "boom",
           .incr "dead_letter"] :=
  (retry_or_deadletter_spec 5 ⟨some "p", none, [], some 4, none⟩ "boom").2.1
    (by decide)

/-- C5 (code bug): `verify_internal_token` reads `settings.internal_token`,
a field the `Settings` model never declares (config.py declares
`internal_service_token`), so the dependency raises AttributeError on every
request: a mismatching header does not get a 401 and a matching header is
still rejected (HTTP 500). -/
theorem verify_internal_token_always_raises (settings : Settings)
    (token : Option String) :
    verify_internal_token settings token
        = .serverError
            "AttributeError: 'Settings' object has no attribute 'internal_token'" ∧
      (∀ d, verify_internal_token settings token ≠ .clientError 401 d) ∧
      (∀ t, verify_internal_token settings token ≠ .ok t) := by
  refine ⟨rfl, ?_, ?_⟩
  · intro d h
    cases h
  · intro t h
    cases h

theorem handle_env_persist_shape (W : World) (env : JobEnvelope)
    (st : ClusterState)
    (hmem : Effect.persist st ∈ (handle_env W env).effects) :
    ∃ pid results clusters updates,
      pyInt? env.pet_id = some pid ∧
      clusterResultsOf W pid = .ok results ∧
      buildOutputs (pyStr env.pet_id) results = .ok (clusters, updates) ∧
      st = mkClusterState W (pyStr env.pet_id) (W.fetchImages pid) clusters
        results := by
  unfold handle_env at hmem
  split at hmem
  · simp at hmem
  next pid hpid =>
    split at hmem
    next himg => simp at hmem
    next i is himg =>
      split at hmem
      next hval => simp at hmem
      next v vs hval =>
        split at hmem
        next e hres => simp at hmem
        next results hres =>
          split at hmem
          next msg hout => simp at hmem
          next clusters updates hout =>
            refine ⟨pid, results, clusters, updates, hpid, hres, hout, ?_⟩
            by_cases hup : updates.isEmpty <;> simp [hup] at hmem <;>
              exact hmem

/-- C6 (amended): every ClusterState the worker persists has
metrics.num_images equal to the number of IDs returned by the storage
listing — which includes IDs later dropped for lacking a usable embedding,
so it can exceed the count of IDs actually clustered — and
metrics.avg_quality equal to the arithmetic mean of the per-cluster
quality_score values, or 0 when there are no clusters. -/
theorem persisted_metrics_amended (W : World) (env : JobEnvelope)
    (st : ClusterState)
    (hmem : Effect.persist st ∈ (handle_env W env).effects) :
    ∃ pid results,
      pyInt? env.pet_id = some pid ∧
      clusterResultsOf W pid = .ok results ∧
      st.metrics.lookup "num_images"
        = some (JVal.int ((W.fetchImages pid).length : Int)) ∧
      st.metrics.lookup "avg_quality"
        = some (JVal.num (if results.isEmpty then 0
            else pyMean (results.map ClusterResult.quality_score))) := by
  obtain ⟨pid, results, clusters, updates, hpid, hres, hout, hst⟩ :=
    handle_env_persist_shape W env st hmem
  subst hst
  exact ⟨pid, results, hpid, hres, rfl, rfl⟩

/-- C6 amended witness: the concrete run of `W6`/`env6` persists `st6`. -/
theorem persisted_metrics_amended_witness :
    ∃ pid results,
      pyInt? env6.pet_id = some pid ∧
      clusterResultsOf W6 pid = .ok results ∧
      st6.metrics.lookup "num_images"
        = some (JVal.int ((W6.fetchImages pid).length : Int)) ∧
      st6.metrics.lookup "avg_quality"
        = some (JVal.num (if results.isEmpty then 0
            else pyMean (results.map ClusterResult.quality_score))) :=
  persisted_metrics_amended W6 env6 st6 (by decide)

/-- C6 counterexample: with a listing of two IDs of which only one carries a
usable embedding, the persisted metrics.num_images is 2, while the count of
input image IDs that had embeddings (the IDs actually clustered) is 1, so
the claimed equality fails. -/
theorem persisted_num_images_counterexample :
    (handle_env W6 env6).effects.filterMap
        (fun e => match e with | Effect.persist st => some st | _ => none)
      = [st6] ∧
      st6.metrics.lookup "num_images" = some (JVal.int 2) ∧
      (validIdsOf W6 42).length = 1 ∧
      st6.metrics.lookup "num_images"
        ≠ some (JVal.int ((validIdsOf W6 42).length : Int)) := by
  refine ⟨by decide, rfl, rfl, by decide⟩

/-- C7: a stream entry whose payload field is absent or not valid JSON is
acked and counted `invalid`; no state is written, and the entry is neither
republished nor dead-lettered. -/
theorem invalid_payload_spec (max_attempts : Int) (W : World)
    (pf : Option String)
    (h : pf = none ∨ ∃ s, pf = some s ∧ W.jsonParse s = none) :
    process_message max_attempts W pf = [.ack, .incr "invalid"] ∧
      (∀ st, Effect.persist st ∉ process_message max_attempts W pf) ∧
      (∀ e err, Effect.deadLetter e err ∉ process_message max_attempts W pf) ∧
      (∀ e, Effect.republish e ∉ process_message max_attempts W pf) := by
  have htr : process_message max_attempts W pf = [.ack, .incr "invalid"] := by
    rcases h with rfl | ⟨s, rfl, hs⟩
    · rfl
    · simp [process_message, handle_job, hs]
  refine ⟨htr, fun st => ?_, fun e err => ?_, fun e => ?_⟩ <;> rw [htr] <;>
    simp

/-- C7 witness: a concrete non-JSON payload. -/
theorem invalid_payload_spec_witness :
    process_message 5 W6 (some "notjson") = [.ack, .incr "invalid"] :=
  (invalid_payload_spec 5 W6 (some "notjson")
    (Or.inr ⟨"notjson", rfl, rfl⟩)).1

/-- C8: when the subject's listing is non-empty but no listed ID carries a
usable embedding, the handler returns normally after the two fetches,
without acking, without raising and without persisting: the entry stays
pending for redelivery. -/
theorem empty_embeddings_spec (W : World) (env : JobEnvelope) (pid : Int)
    (h1 : pyInt? env.pet_id = some pid)
    (h2 : W.fetchImages pid ≠ [])
    (h3 : validIdsOf W pid = []) :
    handle_env W env
        = ⟨[Effect.fetchImages pid, Effect.fetchInsights (W.fetchImages pid)],
           .returned⟩ ∧
      Effect.ack ∉ (handle_env W env).effects ∧
      (∀ st, Effect.persist st ∉ (handle_env W env).effects) ∧
      (handle_env W env).outcome = .returned := by
  have heq : handle_env W env
      = ⟨[Effect.fetchImages pid, Effect.fetchInsights (W.fetchImages pid)],
         .returned⟩ := by
    unfold handle_env
    split
    next hx =>
      rw [h1] at hx
      cases hx
    next pid2 hx =>
      rw [h1] at hx
      injection hx with hx2
      subst hx2
      split
      next himg => exact absurd himg h2
      next i is himg =>
        rw [h3]
  refine ⟨heq, ?_, fun st => ?_, ?_⟩ <;> rw [heq] <;> simp

/-- C8 witness: the concrete world `W8` lists one ID without a usable
embedding. -/
theorem empty_embeddings_spec_witness :
    handle_env W8 env8
        = ⟨[Effect.fetchImages 3, Effect.fetchInsights (W8.fetchImages 3)],
           .returned⟩ ∧
      Effect.ack ∉ (handle_env W8 env8).effects ∧
      (∀ st, Effect.persist st ∉ (handle_env W8 env8).effects) ∧
      (handle_env W8 env8).outcome = .returned :=
  empty_embeddings_spec W8 env8 3 (by decide) (by decide) (by decide)

/-- C9 counterexample: two worker-shaped persisted states that differ only
in metrics.num_images produce identical 200 responses — the response model's
metrics filter retains only {coverage, quality_score, processed_at}, so the
num_clusters, num_images and avg_quality the claim promises are not
returned. -/
theorem get_clusters_metrics_counterexample :
    st9a.metrics.lookup "num_images" = some (JVal.int 3) ∧
      st9b.metrics.lookup "num_images" = some (JVal.int 7) ∧
      st9a ≠ st9b ∧
      get_clusters (some st9a) = get_clusters (some st9b) ∧
      (from_domain st9a).metrics
        = { coverage := [], quality_score := none
            processed_at := some "t1" } := by
  exact ⟨rfl, rfl, by decide, rfl, rfl⟩

/-- C9 (amended): GET of a subject's clusters returns 404 when no state is
persisted, and otherwise 200 with the persisted pet_id, clusters (converted
member-by-member) and updated_at; of the worker-written metrics only
processed_at survives the response model's key filter — num_clusters,
num_images and avg_quality are dropped. -/
theorem get_clusters_amended (W : World) (env : JobEnvelope)
    (st : ClusterState)
    (hmem : Effect.persist st ∈ (handle_env W env).effects) :
    get_clusters none = (404, none) ∧
      get_clusters (some st)
        = (200, some { pet_id := st.pet_id
                       clusters := st.clusters.map respClusterOf
                       metrics := { coverage := [], quality_score := none
                                    processed_at := some W.now }
                       updated_at := st.updated_at }) := by
  obtain ⟨pid, results, clusters, updates, hpid, hres, hout, hst⟩ :=
    handle_env_persist_shape W env st hmem
  refine ⟨rfl, ?_⟩
  subst hst
  rfl

/-- C9 amended witness at the concrete persisted state `st6`. -/
theorem get_clusters_amended_witness :
    get_clusters none = (404, none) ∧
      get_clusters (some st6)
        = (200, some { pet_id := st6.pet_id
                       clusters := st6.clusters.map respClusterOf
                       metrics := { coverage := [], quality_score := none
                                    processed_at := some W6.now }
                       updated_at := st6.updated_at }) :=
  get_clusters_amended W6 env6 st6 (by decide)

theorem handle_env_badPet (W : World) (env : JobEnvelope) (p : String)
    (h1 : env.pet_id = some p) (h2 : pyParseInt p = none) :
    handle_env W env = ⟨[], .raised (intErrorOf (some p))⟩ := by
  unfold handle_env
  rw [h1]
  simp only [pyInt?]
  rw [h2]

theorem deliverN_badPet_never_success (W : World) (p : String) (m : Int)
    (h2 : pyParseInt p = none) :
    ∀ (n : Nat) (e : JobEnvelope), e.pet_id = some p →
      ∀ effs ∈ deliverN W m n e,
        Effect.incr "success" ∉ effs ∧ ∀ st, Effect.persist st ∉ effs := by
  intro n
  induction n with
  | zero =>
    intro e he effs heffs
    simp [deliverN] at heffs
  | succ k ih =>
    intro e he effs heffs
    simp only [deliverN] at heffs
    rw [handle_env_badPet W e p he h2] at heffs
    simp only [retry_or_deadletter] at heffs
    by_cases hc : e.attempts.getD 0 + 1 ≥ m
    · simp [hc] at heffs
      subst heffs
      refine ⟨by simp, fun st => by simp⟩
    · simp [hc] at heffs
      rcases heffs with rfl | hmem2
      · refine ⟨by simp, fun st => by simp⟩
      · exact ih { e with attempts := some (e.attempts.getD 0 + 1) } he effs
          hmem2

theorem deliverN_ne_nil (W : World) (m : Int) (k : Nat) (e : JobEnvelope) :
    deliverN W m (k + 1) e ≠ [] := by
  simp only [deliverN]
  split
  · simp
  · split <;> simp

theorem getLast?_cons_of_ne_nil {α : Type _} (a : α) {l : List α}
    (h : l ≠ []) : (a :: l).getLast? = l.getLast? := by
  cases l with
  | nil => exact absurd rfl h
  | cons b t => rfl

theorem deliverN_badPet_deadletter (W : World) (p : String) (m : Nat)
    (h2 : pyParseInt p = none) :
    ∀ (j : Nat) (e : JobEnvelope), e.pet_id = some p → 1 ≤ j →
      e.attempts.getD 0 + (j : Int) = (m : Int) →
      ∃ effs, (deliverN W (m : Int) j e).getLast? = some effs ∧
        Effect.deadLetter { e with attempts := some (m : Int) }
          (intErrorOf (some p)) ∈ effs := by
  intro j
  induction j with
  | zero =>
    intro e he hj hsum
    exact absurd hj (by omega)
  | succ k ih =>
    intro e he hj hsum
    push_cast at hsum
    by_cases hk : k = 0
    · subst hk
      have hm' : e.attempts.getD 0 + 1 = (m : Int) := by omega
      have hge : e.attempts.getD 0 + 1 ≥ (m : Int) := le_of_eq hm'.symm
      have hdel : deliverN W (m : Int) 1 e
          = [[Effect.incr "failure", Effect.ack,
              Effect.deadLetter { e with attempts := some (m : Int) }
                (intErrorOf (some p)),
              Effect.incr "dead_letter"]] := by
        simp only [deliverN]
        rw [handle_env_badPet W e p he h2]
        simp only [retry_or_deadletter]
        rw [hm']
        simp
      exact ⟨_, by rw [hdel]; rfl, by simp⟩
    · obtain ⟨k', rfl⟩ : ∃ k', k = k' + 1 := ⟨k - 1, by omega⟩
      have hlt : ¬ e.attempts.getD 0 + 1 ≥ (m : Int) := by omega
      have hdel : deliverN W (m : Int) (k' + 1 + 1) e
          = ([Effect.incr "failure", Effect.ack, Effect.incr "retry",
              Effect.republish
                { e with attempts := some (e.attempts.getD 0 + 1) }])
            :: deliverN W (m : Int) (k' + 1)
                { e with attempts := some (e.attempts.getD 0 + 1) } := by
        simp only [deliverN]
        rw [handle_env_badPet W e p he h2]
        simp only [retry_or_deadletter]
        simp [hlt]
      rw [hdel, getLast?_cons_of_ne_nil _ (deliverN_ne_nil W (m : Int) k' _)]
      have hsum2 : e.attempts.getD 0 + 1 + ((k' + 1 : Nat) : Int) = (m : Int) := by
        push_cast
        omega
      exact ih { e with attempts := some (e.attempts.getD 0 + 1) } he
        (by omega) hsum2

/-- C10: an envelope whose pet_id is not accepted by Python's int conversion
makes the handler raise before any storage call (its effect trace is empty);
every delivery therefore takes the failure path — no delivery ever persists
state or counts success — and starting from attempts = 0 the
max_attempts-th delivery dead-letters the envelope with the int() error
string and attempts = max_attempts. -/
theorem bad_pet_id_spec (W : World) (env : JobEnvelope) (p : String)
    (m : Nat) (h1 : env.pet_id = some p) (h2 : pyParseInt p = none)
    (h3 : env.attempts = some 0) (hm : 1 ≤ m) :
    handle_env W env = ⟨[], .raised (intErrorOf (some p))⟩ ∧
      (∀ n, ∀ effs ∈ deliverN W (m : Int) n env,
        Effect.incr "success" ∉ effs ∧ ∀ st, Effect.persist st ∉ effs) ∧
      (∃ effs, (deliverN W (m : Int) m env).getLast? = some effs ∧
        Effect.deadLetter { env with attempts := some (m : Int) }
          (intErrorOf (some p)) ∈ effs) := by
  refine ⟨handle_env_badPet W env p h1 h2, ?_, ?_⟩
  · intro n effs heffs
    exact deliverN_badPet_never_success W p (m : Int) h2 n env h1 effs heffs
  · refine deliverN_badPet_deadletter W p m h2 m env h1 hm ?_
    rw [h3]
    simp

/-- C10 witness: the literal front-door identifier "pet_123" with
max_attempts 5. -/
theorem bad_pet_id_spec_witness :
    handle_env W10 env10 = ⟨[], .raised (intErrorOf (some "pet_123"))⟩ ∧
      (∃ effs, (deliverN W10 ((5 : Nat) : Int) 5 env10).getLast? = some effs ∧
        Effect.deadLetter { env10 with attempts := some ((5 : Nat) : Int) }
          (intErrorOf (some "pet_123")) ∈ effs) :=
  ⟨(bad_pet_id_spec W10 env10 "pet_123" 5 rfl (by decide) rfl (by decide)).1,
   (bad_pet_id_spec W10 env10 "pet_123" 5 rfl (by decide) rfl
     (by decide)).2.2⟩

end Sploot
